import Mathlib

/-!
Shallow embedding of the ASHN incident-healing pipeline (src/agents) and
proofs about its decision logic: the stage-transition guards and retry loop
of graph.py, the verifier of nodes/verification.py, the evidence scorer of
nodes/detection.py, the root-cause engine of nodes/rca.py, and the AI
wrapper nodes.

Python strings that are computed on (parsed, sliced, compared as text) are
modelled as lists of characters; strings used only as enumeration-like tags
(fault types, severities, event actions, stages, risk levels) are modelled
as Lean `String`.  Python floats are modelled as rationals; on every value
the pipeline actually compares (small decimal literals and integer counts)
the rational and IEEE comparisons agree.
-/

/-- Python `str` as a list of characters, for text that is computed on. -/
abbrev Str := List Char

/-- Coerce a Lean string literal into the character-list model. -/
def str (s : String) : Str := s.data

/-- One record of the append-only event log.  The Python code stores a
`details` dict; the model keeps a single text field, which is all the
claims inspect (the error text of C9). -/
structure Ev where
  stage : String
  agent : String
  action : String
  details : String
deriving DecidableEq, Repr

/-- Derived retry counter of `should_retry_or_end` (graph.py line 91):
the number of events in the log whose action is `verification_failed`. -/
def countVF (events : List Ev) : Nat :=
  events.countP (fun e => e.action == "verification_failed")

/-- Routing outcome of the post-detection guard (graph.py). -/
inductive DetRoute where
  | rca
  | end_unconfirmed
deriving DecidableEq, Repr

/-- `should_continue_after_detection` (graph.py lines 44-57). -/
def should_continue_after_detection (confidence : ℚ) (fault_type : String) : DetRoute :=
  if confidence < 0.3 ∨ fault_type = "unknown" then .end_unconfirmed
  else .rca

/-- Routing outcome of the post-RCA guard (graph.py). -/
inductive RcaRoute where
  | remediation
  | end_no_action
deriving DecidableEq, Repr

/-- `should_continue_after_rca` (graph.py lines 60-77). -/
def should_continue_after_rca (rca_confidence : ℚ) (risk : String) : RcaRoute :=
  if rca_confidence < 0.4 then .end_no_action
  else if risk = "high" ∧ rca_confidence < 0.8 then .end_no_action
  else .remediation

/-- Routing outcome of the post-verification guard (graph.py). -/
inductive VerifRoute where
  | resolved
  | failed
  | retry_rca
deriving DecidableEq, Repr

/-- `should_retry_or_end` (graph.py lines 80-101).  `events` is the state
of the log at guard time; the verification node has already appended the
event for the current attempt when this runs. -/
def should_retry_or_end (passed : Bool) (events : List Ev) : VerifRoute :=
  let verification_attempts := countVF events
  if passed then .resolved
  else if verification_attempts ≥ 2 then .failed
  else .retry_rca

/-- Partial state update returned by the terminal nodes of graph.py. -/
structure NodeUpdate where
  stage : String
  error : Option String
  events : List Ev
deriving DecidableEq, Repr

/-- `end_unconfirmed` (graph.py lines 130-146). -/
def end_unconfirmed : NodeUpdate :=
  { stage := "failed"
    error := some "Incident could not be confirmed with sufficient confidence"
    events := [⟨"detection", "Orchestrator", "incident_unconfirmed",
               "Low detection confidence or unknown fault type"⟩] }

/-- `end_no_action` (graph.py lines 149-166). -/
def end_no_action : NodeUpdate :=
  { stage := "failed"
    error := some "Remediation skipped due to low confidence or high risk"
    events := [⟨"rca", "Orchestrator", "remediation_skipped",
               "Low RCA confidence or high risk"⟩] }

/-- `end_resolved` (graph.py lines 169-193). -/
def end_resolved : NodeUpdate :=
  { stage := "resolved"
    error := none
    events := [⟨"resolved", "Orchestrator", "incident_resolved", ""⟩] }

/-- `end_failed` (graph.py lines 196-213). -/
def end_failed : NodeUpdate :=
  { stage := "failed"
    error := some "Automated remediation unsuccessful, escalating to human operator"
    events := [⟨"failed", "Orchestrator", "incident_failed",
               "Verification failed after multiple attempts"⟩] }

/-- Event appended by the verification node on a failed attempt. -/
def vfEv : Ev := ⟨"verification", "VerificationAgent", "verification_failed", ""⟩

/-- Event appended by the verification node on a passed attempt. -/
def vpEv : Ev := ⟨"verification", "VerificationAgent", "verification_passed", ""⟩

/-- Event appended by the RCA node (`root_cause_identified`). -/
def rcaEv : Ev := ⟨"rca", "RCAAgent", "root_cause_identified", ""⟩

/-- Event appended by the remediation node. -/
def remEv : Ev := ⟨"remediation", "RemediationAgent", "remediation_complete", ""⟩

/-- The Verification/RCA retry loop of graph.py, restricted to runs whose
RCA gate admits remediation (RCA recomputation is deterministic, so a run
that reached verification once keeps doing so on retry).  `outcomes` lists
the overall pass/fail result of each successive verification attempt; each
attempt appends its event before the guard runs, and the retry path appends
the RCA and remediation events of the next iteration.  Returns the terminal
stage and the final event log, or `none` if `outcomes` is exhausted before
a terminal transition. -/
def runVerifLoop (outcomes : List Bool) (events : List Ev) : Option (String × List Ev) :=
  match outcomes with
  | [] => none
  | passed :: rest =>
    let events2 := events ++ [if passed then vpEv else vfEv]
    match should_retry_or_end passed events2 with
    | .resolved => some ("resolved", events2 ++ end_resolved.events)
    | .failed => some ("failed", events2 ++ end_failed.events)
    | .retry_rca => runVerifLoop rest (events2 ++ [rcaEv, remEv])

/-! ### Verifier (nodes/verification.py) -/

/-- Numeric value of a list of decimal digit characters. -/
def digitsVal (cs : Str) : ℕ :=
  cs.foldl (fun n c => 10 * n + (c.toNat - 48)) 0

/-- Unsigned part of Python `float(...)` parsing as used by
`_evaluate_condition`: an integer literal, optionally followed by a dot
and a fractional digit string.  `none` models `ValueError`.  (Python's
grammar also admits a leading dot and exponents, which no condition in the
repository uses.) -/
def parseUnsigned (cs : Str) : Option ℚ :=
  let ip := cs.takeWhile Char.isDigit
  let rest := cs.dropWhile Char.isDigit
  if ip.isEmpty then none
  else
    match rest with
    | [] => some (digitsVal ip : ℚ)
    | '.' :: fp =>
      if fp.all Char.isDigit then
        some ((digitsVal ip : ℚ) + (digitsVal fp : ℚ) / (10 : ℚ) ^ fp.length)
      else none
    | _ => none

/-- Python `float(s)` for the literals the verifier handles; `none` models
a raised `ValueError`. -/
def parseFloat (s : Str) : Option ℚ :=
  match s with
  | [] => none
  | c :: cs =>
    if c = '-' then (parseUnsigned cs).map (fun q => -q)
    else if c = '+' then parseUnsigned cs
    else parseUnsigned (c :: cs)

/-- Python `str.lower()`. -/
def strLower (s : Str) : Str := s.map Char.toLower

/-- The `except ValueError` fallback of `_evaluate_condition`:
case-insensitive string equality of actual and expected. -/
def fallbackEq (actual expected : Str) : Bool :=
  strLower actual == strLower expected

/-- `_evaluate_condition` (verification.py lines 239-272), branch for
branch in source order.  The `>=` and `<=` tests appear after the `>` and
`<` tests, as in the source; a `ValueError` anywhere in the `try` block
(modelled by `parseFloat` returning `none`) falls through to
`fallbackEq`. -/
def evaluate_condition (actual expected : Str) : Bool :=
  match parseFloat actual with
  | none => fallbackEq actual expected
  | some actual_num =>
    if (str ">").isPrefixOf expected then
      match parseFloat (expected.drop 1) with
      | some threshold => decide (actual_num > threshold)
      | none => fallbackEq actual expected
    else if (str "<").isPrefixOf expected then
      match parseFloat (expected.drop 1) with
      | some threshold => decide (actual_num < threshold)
      | none => fallbackEq actual expected
    else if (str ">=").isPrefixOf expected then
      match parseFloat (expected.drop 2) with
      | some threshold => decide (actual_num ≥ threshold)
      | none => fallbackEq actual expected
    else if (str "<=").isPrefixOf expected then
      match parseFloat (expected.drop 2) with
      | some threshold => decide (actual_num ≤ threshold)
      | none => fallbackEq actual expected
    else if (str "!=").isPrefixOf expected then
      match parseFloat (expected.drop 2) with
      | some threshold => decide (actual_num ≠ threshold)
      | none => fallbackEq actual expected
    else
      match parseFloat expected with
      | some expected_num => decide (actual_num = expected_num)
      | none => fallbackEq actual expected

/-- One verification criterion of the `VERIFICATION_CRITERIA` table. -/
structure Criterion where
  check_name : String
  metric : String
  expected : Str
  critical : Bool
deriving DecidableEq, Repr

/-- `VERIFICATION_CRITERIA` (verification.py lines 18-92), keyed by fault
type; unknown fault types get `[]` via `.get(fault_type, [])`. -/
def VERIFICATION_CRITERIA (fault_type : String) : List Criterion :=
  if fault_type = "bgp_link_flap" then
    [⟨"bgp_session_stable", "bgp_session_state", str "1", true⟩,
     ⟨"no_new_flaps", "bgp_flap_count_1m", str "0", true⟩,
     ⟨"interface_no_errors", "interface_error_rate", str "<10", false⟩]
  else if fault_type = "bgp_session_instability" then
    [⟨"bgp_session_established", "bgp_session_state", str "1", true⟩,
     ⟨"prefixes_received", "bgp_prefixes_received", str ">0", true⟩]
  else if fault_type = "traffic_drop" then
    [⟨"traffic_restored", "traffic_utilization", str ">50", true⟩,
     ⟨"no_packet_loss", "packet_loss_rate", str "<1", true⟩]
  else if fault_type = "cpu_spike" then
    [⟨"cpu_normal", "cpu_utilization", str "<80", true⟩]
  else if fault_type = "memory_exhaustion" then
    [⟨"memory_normal", "memory_utilization", str "<85", true⟩]
  else []

/-- Result of a Prometheus metric query as the verifier consumes it:
success with a value, success with an empty result set, or a failed
query. -/
inductive QueryRes where
  | value (v : Str)
  | noData
  | failed
deriving DecidableEq, Repr

/-- Outcome of a single check: pass flag plus the recorded `actual`. -/
structure CheckResult where
  passed : Bool
  actual : Str
deriving DecidableEq, Repr

/-- `_run_verification_check` (verification.py lines 187-236): a failed
query or an empty result set is recorded as passed (permissive-absence
policy); otherwise the comparator runs on the returned value. -/
def run_verification_check (criterion : Criterion) (q : QueryRes) : CheckResult :=
  match q with
  | .value v => ⟨evaluate_condition v criterion.expected, v⟩
  | .noData => ⟨true, str "no_data"⟩
  | .failed => ⟨true, str "query_failed"⟩

/-- `_verify_gns3_state` (verification.py lines 275-302): the node must
report status `started`; a missing node is recorded as passed. -/
def verify_gns3_state (node : Option String) : CheckResult :=
  match node with
  | some status => ⟨status == "started", str status⟩
  | none => ⟨true, str "node_not_found"⟩

/-- Aggregation of `verification_node` (verification.py lines 125-152):
`critical_passed` requires every critical fault-type criterion to pass;
`total_passed` counts passing fault-type criteria plus the GNS3 topology
check; the overall result additionally requires
`total_passed >= len(criteria) * 0.8` — the denominator is the number of
fault-type criteria only. -/
def verification_overall (results : List (Criterion × CheckResult)) (gns3Passed : Bool) : Bool :=
  let critical_passed := results.all (fun r => r.2.passed || !r.1.critical)
  let total_passed := results.countP (fun r => r.2.passed) + (if gns3Passed then 1 else 0)
  critical_passed && decide ((total_passed : ℚ) ≥ (results.length : ℚ) * 0.8)

/-- `verification_node` (verification.py lines 95-184) reduced to its
decision output: run every fault-type criterion against the metric query
results `q`, run the topology check, and aggregate. -/
def verification_node (fault_type : String) (q : String → QueryRes)
    (node : Option String) : Bool :=
  let criteria := VERIFICATION_CRITERIA fault_type
  let results := criteria.map (fun c => (c, run_verification_check c (q c.metric)))
  verification_overall results (verify_gns3_state node).passed

/-- Modelled from the spec: the overall rule as §4.5 words it, with the
topology check counted among "all criteria" in the 80% denominator.  Used
only to compare against `verification_overall`. -/
def verification_overall_spec (results : List (Criterion × CheckResult)) (gns3Passed : Bool) : Bool :=
  let critical_passed := results.all (fun r => r.2.passed || !r.1.critical)
  let total_passed := results.countP (fun r => r.2.passed) + (if gns3Passed then 1 else 0)
  critical_passed && decide ((total_passed : ℚ) ≥ ((results.length : ℚ) + 1) * 0.8)

/-! ### Evidence scorer (nodes/detection.py) -/

/-- One anomaly as returned by the metrics collaborator. -/
structure Anom where
  metric : String
  severity : String
deriving DecidableEq, Repr

/-- The five known fault types, in the insertion order of
`FAULT_SIGNATURES` (detection.py lines 20-46). -/
def faultKeys : List String :=
  ["bgp_link_flap", "bgp_session_instability", "traffic_drop",
   "cpu_spike", "memory_exhaustion"]

/-- Signature metric sets of `FAULT_SIGNATURES` (detection.py). -/
def signatureMetrics (fault_type : String) : List String :=
  if fault_type = "bgp_link_flap" then ["bgp_session_state", "link_flap_count"]
  else if fault_type = "bgp_session_instability" then
    ["bgp_session_state", "bgp_prefixes_received"]
  else if fault_type = "traffic_drop" then ["traffic_utilization", "packet_loss"]
  else if fault_type = "cpu_spike" then ["cpu_utilization"]
  else if fault_type = "memory_exhaustion" then ["memory_utilization"]
  else []

/-- Severity weight used by `_classify_fault`: 1.5 for critical anomalies,
1.0 otherwise. -/
def severityWeight (severity : String) : ℚ :=
  if severity = "critical" then 1.5 else 1

/-- The evidence-score table of `_classify_fault` (detection.py lines
137-155), read off at key `ft`: seed 0.1 on `unknown`, then the anomaly
contributions accumulated over the anomaly loop, then the claimed-fault
bonus, then the stopped-device bonuses.  (The Python dict update
`scores[k] += v` is modelled per key.) -/
def evidence_scores (claimed_fault : String) (anomalies : List Anom)
    (gns3_status : String) (ft : String) : ℚ :=
  let s0 : ℚ := if ft = "unknown" then 0.1 else 0
  let s1 := anomalies.foldl
    (fun sc a =>
      if a.metric ∈ signatureMetrics ft then sc + 0.3 * severityWeight a.severity
      else sc)
    s0
  let s2 : ℚ :=
    if claimed_fault ∈ faultKeys ∧ ft = claimed_fault then s1 + 0.4 else s1
  if gns3_status = "stopped" ∧ ft = "bgp_session_instability" then s2 + 0.3
  else if gns3_status = "stopped" ∧ ft = "traffic_drop" then s2 + 0.2
  else s2

/-- The key enumeration order of the score dict: the five known fault
types, then `unknown` (inserted after the comprehension). -/
def scoreKeys : List String := faultKeys ++ ["unknown"]

/-- Python `max(iterable, key=f)`: keeps the first element and replaces it
only on a strictly larger key, so ties go to the earlier element. -/
def argmaxFirst (f : String → ℚ) (k : String) (ks : List String) : String :=
  ks.foldl (fun best x => if f best < f x then x else best) k

/-- `_classify_fault` (detection.py lines 125-167): returns the winning
fault type, `min(score, 1.0)` as confidence, and the detection method
tag. -/
def classify_fault (claimed_fault : String) (anomalies : List Anom)
    (gns3_status : String) : String × ℚ × String :=
  let scores := evidence_scores claimed_fault anomalies gns3_status
  let best_match := argmaxFirst scores "bgp_link_flap" (scoreKeys.drop 1)
  let confidence := min (scores best_match) 1
  let method :=
    if anomalies ≠ [] then "metric_anomaly_detection"
    else if claimed_fault ≠ "unknown" then "operator_reported"
    else "proactive_analysis"
  (best_match, confidence, method)

/-! ### Root-cause engine (nodes/rca.py) -/

/-- A metric deviation record as the detection node builds it. -/
structure Deviation where
  metric_name : String
  deviation_sigma : ℚ
  severity : String
deriving DecidableEq, Repr

/-- The `common_causes` lists of `RCA_KNOWLEDGE_BASE` (rca.py lines
21-124), with the `["Unknown cause"]` default that rca.py line 201
substitutes for fault types absent from the table. -/
def common_causes (fault_type : String) : List String :=
  if fault_type = "bgp_link_flap" then
    ["Physical link degradation (fiber, transceiver)",
     "MTU mismatch between peers",
     "Duplex/speed auto-negotiation issues",
     "BGP hold timer too aggressive",
     "Transceiver overheating"]
  else if fault_type = "bgp_session_instability" then
    ["Route policy misconfiguration",
     "Prefix limit exceeded",
     "Authentication mismatch",
     "CPU overload affecting BGP process",
     "Route flapping from upstream"]
  else if fault_type = "traffic_drop" then
    ["Routing table corruption",
     "ECMP path failure",
     "ACL blocking traffic",
     "Buffer exhaustion",
     "Microbursts causing drops"]
  else if fault_type = "cpu_spike" then
    ["Route churn/instability",
     "Control plane attack",
     "Memory leak in process",
     "Excessive logging",
     "Protocol storm"]
  else if fault_type = "memory_exhaustion" then
    ["Route table overflow",
     "Memory leak in application",
     "Too many BGP routes",
     "Configuration bloat"]
  else ["Unknown cause"]

/-- Evidence text for one metric deviation (the Python text also quotes
the metric name and formats the sigma to one decimal; only the count of
items feeds any decision). -/
def deviationEvidence (d : Deviation) : String :=
  "Metric " ++ d.metric_name ++ " deviated by sigma"

/-- Python `needle in hay` on strings: `needle` occurs as a contiguous
substring of `hay`. -/
def containsSub (hay needle : Str) : Bool :=
  match hay with
  | [] => needle.isEmpty
  | c :: t => needle.isPrefixOf (c :: t) || containsSub t needle

/-- The BGP condition of `_analyze_root_cause` (rca.py line 326): the raw
neighbor output contains `Active` or `never`. -/
def bgpNeighborDown (bgp_output : Str) : Bool :=
  containsSub bgp_output (str "Active") || containsSub bgp_output (str "never")

/-- The interface condition of `_analyze_root_cause` (rca.py line 330):
the lower-cased interface-status output contains `down`. -/
def interfaceDown (intf_output : Str) : Bool :=
  containsSub (strLower intf_output) (str "down")

/-- Output of `_analyze_root_cause`. -/
structure RootCauseAnalysis where
  root_cause : String
  hypothesis : String
  evidence : List String
  confidence : ℚ
deriving DecidableEq, Repr

/-- `_analyze_root_cause` (rca.py lines 308-342): one evidence item per
metric deviation, plus one for a down/active BGP neighbor, plus one for a
down interface; root cause is the head of the common-causes list;
confidence is `min(0.3 + 0.15 * len(evidence), 0.95)`. -/
def analyze_root_cause (fault_type : String) (metric_deviations : List Deviation)
    (bgp_output intf_output : Str) (causes : List String) : RootCauseAnalysis :=
  let evidence :=
    metric_deviations.map deviationEvidence
    ++ (if bgpNeighborDown bgp_output then ["BGP neighbor in Active/Down state detected"] else [])
    ++ (if interfaceDown intf_output then ["Interface in down state detected"] else [])
  let most_likely :=
    match causes with
    | c :: _ => c
    | [] => "Unknown cause for " ++ fault_type
  let hypothesis :=
    "Based on " ++ toString evidence.length
    ++ " pieces of evidence, the most likely cause is: " ++ most_likely
  let confidence := min (0.3 + (evidence.length : ℚ) * 0.15) 0.95
  ⟨most_likely, hypothesis, evidence, confidence⟩

/-! ### Orchestrator entry point (graph.py `run_healing_workflow`) -/

/-- The slice of `IncidentState` (state.py) that `run_healing_workflow`
builds and returns. -/
structure IncidentStateM where
  incident_id : String
  device_id : String
  device_name : String
  device_type : String
  fault_type : String
  severity : String
  stage : String
  error : Option String
  events : List Ev
deriving DecidableEq, Repr

/-- `create_initial_state` (state.py lines 86-122), restricted to the
modelled fields. -/
def create_initial_state (incident_id device_id device_name device_type
    fault_type severity : String) : IncidentStateM :=
  { incident_id := incident_id
    device_id := device_id
    device_name := device_name
    device_type := device_type
    fault_type := fault_type
    severity := severity
    stage := "detection"
    error := none
    events := [] }

/-- `run_healing_workflow` (graph.py lines 300-354).  The invocation of
the compiled graph is modelled as an `Except` value: `.ok` is a normal
terminal state, `.error e` is an exception with text `e` raised anywhere
inside the pipeline.  The `try/except` converts the exception into a
terminal failed state built from the initial state, carrying the error
text and a single `workflow_error` event; nothing is re-raised. -/
def run_healing_workflow (initial_state : IncidentStateM)
    (invoke : Except String IncidentStateM) : IncidentStateM :=
  match invoke with
  | .ok final_state => final_state
  | .error e =>
    { initial_state with
        stage := "failed"
        error := some e
        events := [⟨"error", "Orchestrator", "workflow_error", e⟩] }

/-! ### AI wrapper nodes (detection.py and rca.py) -/

/-- The partial state update returned by `detection_node`
(detection.py lines 114-122), restricted to the modelled fields. -/
structure DetUpdate where
  stage : String
  fault_type : String
  detection_confidence : ℚ
  detection_method : String
  metric_deviations : List Deviation
  events : List Ev
deriving DecidableEq, Repr

/-- Python `s[:n]`. -/
def pyTake (s : String) (n : ℕ) : String := ⟨s.data.take n⟩

/-- `detection_node_with_ai` (detection.py lines 170-215): it computes
`detection_node(state)` first, then asks the LLM and, on success, appends
one `ai_classification` event with the truncated response; on an LLM
exception it changes nothing.  The AI response is never merged into the
fault type, confidence, or method. -/
def detection_node_with_ai (base_result : DetUpdate)
    (ai_response : Option String) : DetUpdate :=
  match ai_response with
  | some content =>
    { base_result with
        events := base_result.events
          ++ [⟨"detection", "DetectionAgent", "ai_classification", pyTake content 500⟩] }
  | none => base_result

/-- The partial state update returned by `rca_node` (rca.py lines
284-295), restricted to the modelled fields; internal log entries are
modelled by their titles. -/
structure RcaUpdate where
  stage : String
  root_cause : String
  rca_hypothesis : String
  rca_evidence : List String
  rca_confidence : ℚ
  affected_devices : List String
  remediation_plan : List String
  remediation_risk : String
  events : List Ev
  internal_logs : List String
deriving DecidableEq, Repr

/-- `rca_node_with_ai` (rca.py lines 413-502): it computes
`rca_node(state)` first and always appends the request log entry; on LLM
success it appends the response log entry, overwrites the hypothesis with
the first 1000 characters of the response, and appends one
`ai_analysis_complete` event; on an LLM exception it appends the failure
log entry only.  Confidence, root cause, plan, and risk are untouched. -/
def rca_node_with_ai (base_result : RcaUpdate)
    (ai_response : Option String) : RcaUpdate :=
  let logs1 := base_result.internal_logs ++ ["LLM RCA Analysis Request"]
  match ai_response with
  | some content =>
    { base_result with
        rca_hypothesis := pyTake content 1000
        events := base_result.events
          ++ [⟨"rca", "RCAAgent", "ai_analysis_complete", ""⟩]
        internal_logs := logs1 ++ ["LLM RCA Analysis Response"] }
  | none =>
    { base_result with
        internal_logs := logs1 ++ ["LLM RCA Analysis Failed"] }

/-- A concrete metric-query assignment under which every
`bgp_link_flap` criterion passes. -/
def qAllPass : String → QueryRes := fun m =>
  if m == "bgp_session_state" then .value (str "1")
  else if m == "bgp_flap_count_1m" then .value (str "0")
  else if m == "interface_error_rate" then .value (str "5")
  else .noData

/-! ### Helper lemmas -/

lemma countVF_append (a b : List Ev) : countVF (a ++ b) = countVF a + countVF b := by
  simp [countVF, List.countP_append]

lemma countVF_cons (e : Ev) (l : List Ev) :
    countVF (e :: l) = countVF l + (if e.action == "verification_failed" then 1 else 0) := by
  simp [countVF, List.countP_cons]

lemma parseFloat_nil : parseFloat [] = none := rfl

lemma parseFloat_not_num {c : Char} (cs : Str) (h1 : c ≠ '-') (h2 : c ≠ '+')
    (h3 : c.isDigit = false) : parseFloat (c :: cs) = none := by
  simp [parseFloat, h1, h2, parseUnsigned, List.takeWhile_cons, h3]

lemma parseFloat_head {c : Char} {cs : Str} {t : ℚ}
    (h : parseFloat (c :: cs) = some t) : c = '-' ∨ c = '+' ∨ c.isDigit = true := by
  by_cases h1 : c = '-'
  · exact Or.inl h1
  by_cases h2 : c = '+'
  · exact Or.inr (Or.inl h2)
  refine Or.inr (Or.inr ?_)
  by_contra hd
  rw [parseFloat_not_num cs h1 h2 (Bool.not_eq_true _ ▸ hd)] at h
  exact Option.noConfusion h

lemma head_not_op {c : Char} (h : c = '-' ∨ c = '+' ∨ c.isDigit = true) :
    c ≠ '>' ∧ c ≠ '<' ∧ c ≠ '!' := by
  rcases h with h | h | h
  · subst h; exact ⟨by decide, by decide, by decide⟩
  · subst h; exact ⟨by decide, by decide, by decide⟩
  · refine ⟨?_, ?_, ?_⟩ <;> rintro rfl <;> exact absurd h (by decide)

lemma anomFold_eq (l : List Anom) (b : ℚ) (ft : String) :
    l.foldl (fun sc a =>
        if a.metric ∈ signatureMetrics ft then sc + 0.3 * severityWeight a.severity else sc) b
      = b + (l.map (fun a =>
          if a.metric ∈ signatureMetrics ft then 0.3 * severityWeight a.severity else 0)).sum := by
  induction l generalizing b with
  | nil => simp
  | cons a l ih =>
    simp only [List.foldl_cons, List.map_cons, List.sum_cons]
    rw [ih]
    split_ifs with h
    · ring
    · ring

lemma severityWeight_pos (s : String) : 0 < severityWeight s := by
  unfold severityWeight
  split_ifs <;> norm_num

lemma evidence_scores_eq (claimed : String) (anoms : List Anom) (g ft : String) :
    evidence_scores claimed anoms g ft =
      (if ft = "unknown" then 0.1 else 0)
      + (anoms.map (fun a =>
          if a.metric ∈ signatureMetrics ft then 0.3 * severityWeight a.severity else 0)).sum
      + (if claimed ∈ faultKeys ∧ ft = claimed then 0.4 else 0)
      + (if g = "stopped" ∧ ft = "bgp_session_instability" then 0.3
         else if g = "stopped" ∧ ft = "traffic_drop" then 0.2 else 0) := by
  simp only [evidence_scores]
  rw [anomFold_eq]
  split_ifs <;> ring

lemma evidence_scores_nonneg (claimed : String) (anoms : List Anom) (g ft : String) :
    0 ≤ evidence_scores claimed anoms g ft := by
  rw [evidence_scores_eq]
  have hsum : 0 ≤ (anoms.map (fun a =>
      if a.metric ∈ signatureMetrics ft then 0.3 * severityWeight a.severity else 0)).sum := by
    apply List.sum_nonneg
    intro x hx
    rcases List.mem_map.mp hx with ⟨a, _, rfl⟩
    have := severityWeight_pos a.severity
    split_ifs
    · linarith
    · exact le_refl 0
  split_ifs <;> linarith

lemma argmaxFirst_correct (f : String → ℚ) (k : String) (ks : List String) :
    ∃ pre suf, k :: ks = pre ++ argmaxFirst f k ks :: suf
      ∧ (∀ x ∈ pre, f x < f (argmaxFirst f k ks))
      ∧ (∀ x ∈ k :: ks, f x ≤ f (argmaxFirst f k ks)) := by
  induction ks generalizing k with
  | nil =>
    refine ⟨[], [], rfl, ?_, ?_⟩
    · intro x hx; cases hx
    · intro x hx
      have hx2 : x = k := by simpa using hx
      subst hx2
      exact le_refl _
  | cons b l ih =>
    have hstep : argmaxFirst f k (b :: l) = argmaxFirst f (if f k < f b then b else k) l := rfl
    by_cases hb : f k < f b
    · obtain ⟨pre, suf, hdec, hpre, hmax⟩ := ih b
      have hr : argmaxFirst f k (b :: l) = argmaxFirst f b l := by rw [hstep, if_pos hb]
      rw [hr]
      have hbr : f b ≤ f (argmaxFirst f b l) := hmax b (List.mem_cons_self b l)
      refine ⟨k :: pre, suf, ?_, ?_, ?_⟩
      · rw [List.cons_append, ← hdec]
      · intro x hx
        rcases List.mem_cons.mp hx with rfl | hx
        · exact lt_of_lt_of_le hb hbr
        · exact hpre x hx
      · intro x hx
        rcases List.mem_cons.mp hx with rfl | hx
        · exact le_trans (le_of_lt hb) hbr
        · exact hmax x hx
    · obtain ⟨pre, suf, hdec, hpre, hmax⟩ := ih k
      have hr : argmaxFirst f k (b :: l) = argmaxFirst f k l := by rw [hstep, if_neg hb]
      rw [hr]
      have hkr : f k ≤ f (argmaxFirst f k l) := hmax k (List.mem_cons_self k l)
      have hbk : f b ≤ f k := le_of_not_lt hb
      cases pre with
      | nil =>
        simp only [List.nil_append] at hdec
        injection hdec with hk hl
        refine ⟨[], b :: l, ?_, ?_, ?_⟩
        · rw [List.nil_append, ← hk]
        · intro x hx; cases hx
        · intro x hx
          rcases List.mem_cons.mp hx with rfl | hx
          · exact hkr
          rcases List.mem_cons.mp hx with rfl | hx
          · exact le_trans hbk hkr
          · exact hmax x (List.mem_cons_of_mem _ hx)
      | cons p ps =>
        simp only [List.cons_append] at hdec
        injection hdec with hp hl
        have hkless : f k < f (argmaxFirst f k l) := by
          have h0 := hpre p (List.mem_cons_self p ps)
          rwa [← hp] at h0
        refine ⟨k :: b :: ps, suf, ?_, ?_, ?_⟩
        · conv_lhs => rw [hl]
          simp [List.cons_append]
        · intro x hx
          rcases List.mem_cons.mp hx with rfl | hx
          · exact hkless
          rcases List.mem_cons.mp hx with rfl | hx
          · exact lt_of_le_of_lt hbk hkless
          · exact hpre x (List.mem_cons_of_mem _ hx)
        · intro x hx
          rcases List.mem_cons.mp hx with rfl | hx
          · exact hkr
          rcases List.mem_cons.mp hx with rfl | hx
          · exact le_trans hbk hkr
          · exact hmax x (List.mem_cons_of_mem _ hx)

lemma verification_allNoData (criteria : List Criterion) :
    verification_overall (criteria.map fun c => (c, run_verification_check c .noData)) true = true := by
  unfold verification_overall
  rw [Bool.and_eq_true]
  constructor
  · rw [List.all_eq_true]
    intro r hr
    rcases List.mem_map.mp hr with ⟨c, _, rfl⟩
    simp [run_verification_check]
  · rw [decide_eq_true_eq]
    have hcount : (criteria.map fun c => (c, run_verification_check c .noData)).countP
        (fun r => r.2.passed) = criteria.length := by
      rw [List.countP_map]
      simp [Function.comp, run_verification_check]
    rw [hcount, List.length_map]
    have h0 : (0 : ℚ) ≤ (criteria.length : ℚ) := Nat.cast_nonneg _
    push_cast
    rw [if_pos rfl]
    nlinarith

/-! ### Claim theorems -/

/-- Claim C4: the pipeline proceeds from RCA to Remediation iff RCA
confidence is at least 0.4 and it is not the case that risk is high with
RCA confidence below 0.8; every other post-RCA state takes the no-action
failure terminal.  In particular, RCA confidence 0.5 with high risk routes
to `end_no_action`, whose update is the failed no-action outcome. -/
theorem C4_rca_gate :
    (∀ (rca_confidence : ℚ) (risk : String),
        should_continue_after_rca rca_confidence risk = RcaRoute.remediation ↔
          (0.4 ≤ rca_confidence ∧ ¬(risk = "high" ∧ rca_confidence < 0.8)))
    ∧ should_continue_after_rca 0.5 "high" = RcaRoute.end_no_action
    ∧ end_no_action.stage = "failed"
    ∧ end_no_action.error = some "Remediation skipped due to low confidence or high risk" := by
  refine ⟨?_, by norm_num [should_continue_after_rca], rfl, rfl⟩
  intro conf risk
  unfold should_continue_after_rca
  split_ifs with h1 h2
  · constructor
    · intro h; exact absurd h (by decide)
    · rintro ⟨h4, _⟩; linarith
  · constructor
    · intro h; exact absurd h (by decide)
    · rintro ⟨_, hn⟩; exact hn h2
  · exact ⟨fun _ => ⟨le_of_not_lt h1, h2⟩, fun _ => rfl⟩

/-- Claim C5: the pipeline proceeds from Detection to RCA iff detection
confidence is at least 0.3 and the classified fault type is not
`unknown`; otherwise it takes the unconfirmed terminal.  A claimed fault
of `unknown` with zero anomalies (device started) classifies as `unknown`
with confidence 0.1 and method `proactive_analysis`, routes to
`end_unconfirmed`, and the unconfirmed terminal appends no RCA or
remediation events. -/
theorem C5_detection_gate :
    (∀ (confidence : ℚ) (fault_type : String),
        should_continue_after_detection confidence fault_type = DetRoute.rca ↔
          (0.3 ≤ confidence ∧ fault_type ≠ "unknown"))
    ∧ classify_fault "unknown" [] "started" = ("unknown", 0.1, "proactive_analysis")
    ∧ should_continue_after_detection 0.1 "unknown" = DetRoute.end_unconfirmed
    ∧ end_unconfirmed.stage = "failed"
    ∧ (end_unconfirmed.events.all fun e => e.stage != "rca" && e.stage != "remediation") = true
    ∧ countVF end_unconfirmed.events = 0 := by
  have hs : ∀ ft, evidence_scores "unknown" [] "started" ft =
      if ft = "unknown" then 0.1 else 0 := by
    intro ft; simp [evidence_scores, faultKeys]
  refine ⟨?_, ?_, by simp [should_continue_after_detection], rfl, by decide, by decide⟩
  · intro conf ft
    unfold should_continue_after_detection
    split_ifs with h
    · constructor
      · intro hh; exact absurd hh (by decide)
      · rintro ⟨h3, hne⟩
        rcases h with h | h
        · linarith
        · exact hne h
    · push_neg at h
      exact ⟨fun _ => ⟨h.1, h.2⟩, fun _ => rfl⟩
  · simp [classify_fault, argmaxFirst, scoreKeys, faultKeys, hs, min_def]
    norm_num

/-- Claim C9: the orchestrator entry point converts any exception raised
inside the pipeline into a returned terminal failed state carrying the
exception text and a `workflow_error` event, and returns normal terminal
states unchanged; it is a total function, so no exception escapes to the
caller. -/
theorem C9_orchestrator_boundary :
    ∀ (init : IncidentStateM) (e : String) (s : IncidentStateM),
      run_healing_workflow init (Except.ok s) = s
      ∧ (run_healing_workflow init (Except.error e)).stage = "failed"
      ∧ (run_healing_workflow init (Except.error e)).error = some e
      ∧ (run_healing_workflow init (Except.error e)).events =
          [⟨"error", "Orchestrator", "workflow_error", e⟩] := by
  intro init e s
  exact ⟨rfl, rfl, rfl, rfl⟩

/-- Claim C10: for every base result and every AI response (including an
AI failure), the AI-enhanced detection node returns the same fault type,
detection confidence, and detection method as the rule-based node, and
the AI-enhanced RCA node leaves confidence, root cause, evidence, plan,
risk, affected devices and stage unchanged, only appending to the event
log and internal logs and overwriting the hypothesis text; neither
wrapper changes the verification-failure count used by the retry guard. -/
theorem C10_ai_isolation :
    ∀ (db : DetUpdate) (rb : RcaUpdate) (ai : Option String),
      (detection_node_with_ai db ai).fault_type = db.fault_type
      ∧ (detection_node_with_ai db ai).detection_confidence = db.detection_confidence
      ∧ (detection_node_with_ai db ai).detection_method = db.detection_method
      ∧ (detection_node_with_ai db ai).stage = db.stage
      ∧ (detection_node_with_ai db ai).metric_deviations = db.metric_deviations
      ∧ (∃ t, (detection_node_with_ai db ai).events = db.events ++ t)
      ∧ (rca_node_with_ai rb ai).rca_confidence = rb.rca_confidence
      ∧ (rca_node_with_ai rb ai).root_cause = rb.root_cause
      ∧ (rca_node_with_ai rb ai).remediation_plan = rb.remediation_plan
      ∧ (rca_node_with_ai rb ai).remediation_risk = rb.remediation_risk
      ∧ (rca_node_with_ai rb ai).rca_evidence = rb.rca_evidence
      ∧ (rca_node_with_ai rb ai).affected_devices = rb.affected_devices
      ∧ (rca_node_with_ai rb ai).stage = rb.stage
      ∧ (∃ t, (rca_node_with_ai rb ai).events = rb.events ++ t)
      ∧ countVF (rca_node_with_ai rb ai).events = countVF rb.events
      ∧ countVF (detection_node_with_ai db ai).events = countVF db.events := by
  intro db rb ai
  have hvf1 : ∀ d : String, countVF [⟨"detection", "DetectionAgent", "ai_classification", d⟩] = 0 := by
    intro d; simp [countVF_cons, countVF]
  have hvf2 : countVF [(⟨"rca", "RCAAgent", "ai_analysis_complete", ""⟩ : Ev)] = 0 := by decide
  cases ai with
  | none =>
    refine ⟨rfl, rfl, rfl, rfl, rfl, ⟨[], by simp [detection_node_with_ai]⟩,
      rfl, rfl, rfl, rfl, rfl, rfl, rfl, ⟨[], by simp [rca_node_with_ai]⟩, rfl, rfl⟩
  | some c =>
    refine ⟨rfl, rfl, rfl, rfl, rfl, ⟨_, rfl⟩,
      rfl, rfl, rfl, rfl, rfl, rfl, rfl, ⟨_, rfl⟩, ?_, ?_⟩
    · show countVF (rb.events ++ [⟨"rca", "RCAAgent", "ai_analysis_complete", ""⟩]) = countVF rb.events
      rw [countVF_append, hvf2, Nat.add_zero]
    · show countVF (db.events ++ [⟨"detection", "DetectionAgent", "ai_classification", pyTake c 500⟩])
        = countVF db.events
      rw [countVF_append, hvf1, Nat.add_zero]

/-- Claim C8: a failed metric query or an empty result set records the
criterion as passed; and when every fault-type criterion yields no data
and the topology node cannot be found, the overall verification result is
pass. -/
theorem C8_no_data_passes :
    (∀ c : Criterion, (run_verification_check c .failed).passed = true
        ∧ (run_verification_check c .noData).passed = true)
    ∧ (∀ fault_type : String,
        verification_node fault_type (fun _ => .noData) none = true) := by
  refine ⟨fun c => ⟨rfl, rfl⟩, ?_⟩
  intro ft
  unfold verification_node
  simpa [verify_gns3_state] using verification_allNoData (VERIFICATION_CRITERIA ft)

/-- Claim C2 counterexample: for fault type `bgp_link_flap` with all three
fault-type criteria passing and the topology check failing (node status
`stopped`), the code's overall result is pass — `3 >= 3 * 0.8` — while the
claim's rule, which counts the topology check in the 80% denominator,
demands `3 >= 4 * 0.8` and yields fail. -/
theorem C2_counterexample :
    verification_node "bgp_link_flap" qAllPass (some "stopped") = true
    ∧ verification_overall_spec
        ((VERIFICATION_CRITERIA "bgp_link_flap").map
          (fun c => (c, run_verification_check c (qAllPass c.metric))))
        (verify_gns3_state (some "stopped")).passed = false := by
  have h1 : (VERIFICATION_CRITERIA "bgp_link_flap").map
      (fun c => (c, run_verification_check c (qAllPass c.metric))) =
      [(⟨"bgp_session_stable", "bgp_session_state", str "1", true⟩,
        ⟨true, str "1"⟩),
       (⟨"no_new_flaps", "bgp_flap_count_1m", str "0", true⟩,
        ⟨true, str "0"⟩),
       (⟨"interface_no_errors", "interface_error_rate", str "<10", false⟩,
        ⟨true, str "5"⟩)] := by decide
  constructor
  · show verification_overall
      ((VERIFICATION_CRITERIA "bgp_link_flap").map
        (fun c => (c, run_verification_check c (qAllPass c.metric))))
      (verify_gns3_state (some "stopped")).passed = true
    rw [h1]
    simp [verification_overall, verify_gns3_state]
    norm_num
  · rw [h1]
    simp [verification_overall_spec, verify_gns3_state]
    norm_num

/-- Claim C2 amended: the overall verification result is pass iff every
critical fault-type criterion passed and the number of passes — counting
the topology check in the numerator but not in the denominator — is at
least 80% of the number of fault-type criteria. -/
theorem C2_overall_rule :
    ∀ (fault_type : String) (q : String → QueryRes) (node : Option String),
      verification_node fault_type q node = true ↔
        ((∀ c ∈ VERIFICATION_CRITERIA fault_type,
            c.critical = true → (run_verification_check c (q c.metric)).passed = true)
         ∧ (((((VERIFICATION_CRITERIA fault_type).countP
                  (fun c => (run_verification_check c (q c.metric)).passed))
               + (if (verify_gns3_state node).passed then 1 else 0) : ℕ) : ℚ)
             ≥ ((VERIFICATION_CRITERIA fault_type).length : ℚ) * 0.8)) := by
  intro ft q node
  unfold verification_node verification_overall
  rw [Bool.and_eq_true, decide_eq_true_eq, List.all_eq_true, List.countP_map, List.length_map]
  apply and_congr
  · constructor
    · intro h c hc hcrit
      have := h (c, run_verification_check c (q c.metric)) (List.mem_map_of_mem _ hc)
      simpa [hcrit] using this
    · intro h r hr
      rcases List.mem_map.mp hr with ⟨c, hc, rfl⟩
      rcases hcrit : c.critical with _ | _
      · simp [hcrit]
      · simp [hcrit, h c hc hcrit]
  · exact Iff.rfl

/-- Claim C1 counterexample: the guard counts the verification-failed
event the current failure has already appended.  With exactly one
strictly-prior verification failure in the log (fewer than 2), a second
failed verification routes to the exhausted terminal instead of looping
back to RCA; and a run offered three consecutive failing verifications
terminates after the second attempt — the third verification never
runs. -/
theorem C1_counterexample :
    countVF [rcaEv, remEv, vfEv, rcaEv, remEv] = 1
    ∧ should_retry_or_end false ([rcaEv, remEv, vfEv, rcaEv, remEv] ++ [vfEv]) =
        VerifRoute.failed
    ∧ runVerifLoop [false, false, false] [] =
        some ("failed", [vfEv, rcaEv, remEv, vfEv] ++ end_failed.events) := by
  refine ⟨by decide, by decide, by decide⟩

/-- Claim C1 amended: after a failed verification the pipeline loops back
to RCA exactly when fewer than 2 verification-failed events exist in the
log counting the current failure's just-appended event (equivalently,
when no strictly-prior failure exists); hence the second consecutive
failed verification terminates in the exhausted state — a third
verification attempt never occurs — and the event log then contains
exactly two verification_failed events before the terminal event. -/
theorem C1_retry_bound :
    (∀ (passed : Bool) (events : List Ev),
        should_retry_or_end passed events = VerifRoute.retry_rca ↔
          passed = false ∧ countVF events < 2)
    ∧ (∀ (rest : List Bool) (L : List Ev), countVF L = 0 →
        runVerifLoop (false :: false :: rest) L =
          some ("failed", L ++ [vfEv, rcaEv, remEv, vfEv] ++ end_failed.events))
    ∧ countVF [vfEv, rcaEv, remEv, vfEv] = 2 := by
  have cvf : countVF [vfEv] = 1 := by decide
  have crr : countVF [rcaEv, remEv] = 0 := by decide
  refine ⟨?_, ?_, by decide⟩
  · intro passed events
    unfold should_retry_or_end
    cases passed
    · simp only [Bool.false_eq_true, if_false]
      split_ifs with h
      · constructor
        · intro hh; exact absurd hh (by decide)
        · rintro ⟨_, hlt⟩; omega
      · exact ⟨fun _ => ⟨by trivial, by omega⟩, fun _ => rfl⟩
    · simp
  · intro rest L h
    have c4 : countVF [vfEv, rcaEv, remEv, vfEv] = 2 := by decide
    have hg1 : should_retry_or_end false (L ++ [vfEv]) = VerifRoute.retry_rca := by
      simp [should_retry_or_end, countVF_append, h, cvf]
    have hg2 : should_retry_or_end false (L ++ [vfEv] ++ [rcaEv, remEv] ++ [vfEv]) =
        VerifRoute.failed := by
      simp [should_retry_or_end, countVF_append, h, cvf, crr, c4]
    simp only [runVerifLoop, Bool.false_eq_true, if_false]
    rw [hg1]
    simp only [runVerifLoop, Bool.false_eq_true, if_false]
    rw [hg2]
    simp [List.append_assoc]

/-- Claim C3 counterexample: for actual value `5` and expected condition
`>=5` the claim requires the numeric comparison `5 >= 5`, which holds,
but the evaluator returns false: the `>` prefix test matches first,
`float("=5")` raises, and the case-insensitive string fallback compares
`5` with `>=5`. -/
theorem C3_counterexample :
    evaluate_condition (str "5") (str ">=5") = false ∧ (5 : ℚ) ≥ 5 := by
  exact ⟨by decide, le_refl 5⟩

/-- Claim C3 amended: for a numeric actual value, conditions `>N`, `<N`,
`!=N` and a bare numeric literal `N` evaluate as the corresponding
numeric comparison; `>=N` and `<=N` never reach their dedicated branches
(the `>` and `<` prefix tests match first and the remainder fails to
parse) and instead fall back to case-insensitive string equality, as does
every comparison with a non-numeric actual value. -/
theorem C3_condition_language :
    (∀ (sa se : Str), parseFloat sa = none →
        evaluate_condition sa se = fallbackEq sa se)
    ∧ (∀ (sa st : Str) (a t : ℚ), parseFloat sa = some a → parseFloat st = some t →
        (evaluate_condition sa ('>' :: st) = decide (a > t)
         ∧ evaluate_condition sa ('<' :: st) = decide (a < t)
         ∧ evaluate_condition sa ('!' :: '=' :: st) = decide (a ≠ t)
         ∧ evaluate_condition sa st = decide (a = t)
         ∧ evaluate_condition sa ('>' :: '=' :: st) = fallbackEq sa ('>' :: '=' :: st)
         ∧ evaluate_condition sa ('<' :: '=' :: st) = fallbackEq sa ('<' :: '=' :: st))) := by
  have heqnone : ∀ cs : Str, parseFloat ('=' :: cs) = none := fun cs =>
    parseFloat_not_num cs (by decide) (by decide) (by decide)
  constructor
  · intro sa se h
    simp [evaluate_condition, h]
  · intro sa st a t ha ht
    obtain ⟨c, cs, rfl⟩ : ∃ c cs, st = c :: cs := by
      cases st with
      | nil => rw [parseFloat_nil] at ht; exact Option.noConfusion ht
      | cons c cs => exact ⟨c, cs, rfl⟩
    obtain ⟨hgt, hlt, hbang⟩ := head_not_op (parseFloat_head ht)
    refine ⟨?_, ?_, ?_, ?_, ?_, ?_⟩
    · simp [evaluate_condition, ha, str, List.isPrefixOf, List.drop, ht]
    · simp [evaluate_condition, ha, str, List.isPrefixOf, List.drop, ht]
    · simp [evaluate_condition, ha, str, List.isPrefixOf, List.drop, ht]
    · simp [evaluate_condition, ha, str, List.isPrefixOf, ht,
        Ne.symm hgt, Ne.symm hlt, Ne.symm hbang]
    · simp [evaluate_condition, ha, str, List.isPrefixOf, List.drop, heqnone]
    · simp [evaluate_condition, ha, str, List.isPrefixOf, List.drop, heqnone]

/-- Witness for C3: a concrete numeric instantiation of the amended
condition-language theorem. -/
theorem C3_condition_language_witness :
    parseFloat (str "5") = some 5 ∧ parseFloat (str "7") = some 7 ∧
      evaluate_condition (str "5") ('>' :: str "7") = decide ((5 : ℚ) > 7) := by
  have h5 : parseFloat (str "5") = some 5 := by decide
  have h7 : parseFloat (str "7") = some 7 := by decide
  exact ⟨h5, h7, (C3_condition_language.2 (str "5") (str "7") 5 7 h5 h7).1⟩

/-- Claim C6: the evidence scorer computes per-fault-type scores exactly
as specified — 0.1 seed on `unknown`, `0.3 × severityWeight` per matching
anomaly with weight 1.5 for critical and 1.0 otherwise, +0.4 for a known
claimed fault, and the stopped-device bonuses of 0.3 and 0.2 for the two
link/session-loss fault types — returns the argmax fault type with ties
broken by enumeration order, and returns confidence `min(score, 1)`,
which always lies in `[0, 1]`. -/
theorem C6_evidence_scorer :
    ∀ (claimed_fault : String) (anomalies : List Anom) (gns3_status : String),
      (∀ ft, evidence_scores claimed_fault anomalies gns3_status ft =
          (if ft = "unknown" then 0.1 else 0)
          + (anomalies.map (fun a =>
              if a.metric ∈ signatureMetrics ft then 0.3 * severityWeight a.severity else 0)).sum
          + (if claimed_fault ∈ faultKeys ∧ ft = claimed_fault then 0.4 else 0)
          + (if gns3_status = "stopped" ∧ ft = "bgp_session_instability" then 0.3
             else if gns3_status = "stopped" ∧ ft = "traffic_drop" then 0.2 else 0))
      ∧ (∃ pre suf, scoreKeys =
            pre ++ (classify_fault claimed_fault anomalies gns3_status).1 :: suf
          ∧ ∀ ft ∈ pre, evidence_scores claimed_fault anomalies gns3_status ft <
              evidence_scores claimed_fault anomalies gns3_status
                (classify_fault claimed_fault anomalies gns3_status).1)
      ∧ (∀ ft ∈ scoreKeys, evidence_scores claimed_fault anomalies gns3_status ft ≤
            evidence_scores claimed_fault anomalies gns3_status
              (classify_fault claimed_fault anomalies gns3_status).1)
      ∧ (classify_fault claimed_fault anomalies gns3_status).2.1 =
          min (evidence_scores claimed_fault anomalies gns3_status
            (classify_fault claimed_fault anomalies gns3_status).1) 1
      ∧ 0 ≤ (classify_fault claimed_fault anomalies gns3_status).2.1
      ∧ (classify_fault claimed_fault anomalies gns3_status).2.1 ≤ 1 := by
  intro cf an g
  obtain ⟨pre, suf, hdec, hpre, hmax⟩ :=
    argmaxFirst_correct (evidence_scores cf an g) "bgp_link_flap" (scoreKeys.drop 1)
  have hfst : (classify_fault cf an g).1 =
      argmaxFirst (evidence_scores cf an g) "bgp_link_flap" (scoreKeys.drop 1) := rfl
  have hkeys : "bgp_link_flap" :: scoreKeys.drop 1 = scoreKeys := rfl
  refine ⟨fun ft => evidence_scores_eq cf an g ft,
    ⟨pre, suf, ?_, ?_⟩, ?_, rfl, ?_, ?_⟩
  · rw [hfst, ← hkeys]
    exact hdec
  · intro ft hft
    rw [hfst]
    exact hpre ft hft
  · intro ft hft
    rw [hfst]
    exact hmax ft (hkeys ▸ hft)
  · exact le_min (evidence_scores_nonneg cf an g _) (by norm_num)
  · exact min_le_right _ _

/-- Claim C7: the RCA engine gathers one evidence item per metric
deviation, plus one for a BGP neighbor in a down/active state, plus one
for a down interface; its confidence equals
`min(0.3 + 0.15 × evidenceCount, 0.95)`, which always lies in
`[0, 0.95]`; and the selected root cause is the first entry of the fault
type's common-causes list (which is never empty). -/
theorem C7_rca_engine :
    ∀ (fault_type : String) (devs : List Deviation) (bgp_output intf_output : Str),
      (analyze_root_cause fault_type devs bgp_output intf_output
          (common_causes fault_type)).confidence =
        min (0.3 + (((analyze_root_cause fault_type devs bgp_output intf_output
          (common_causes fault_type)).evidence.length : ℚ)) * 0.15) 0.95
      ∧ (analyze_root_cause fault_type devs bgp_output intf_output
          (common_causes fault_type)).evidence.length =
          devs.length + (if bgpNeighborDown bgp_output then 1 else 0)
            + (if interfaceDown intf_output then 1 else 0)
      ∧ 0 ≤ (analyze_root_cause fault_type devs bgp_output intf_output
          (common_causes fault_type)).confidence
      ∧ (analyze_root_cause fault_type devs bgp_output intf_output
          (common_causes fault_type)).confidence ≤ 0.95
      ∧ common_causes fault_type ≠ []
      ∧ (analyze_root_cause fault_type devs bgp_output intf_output
          (common_causes fault_type)).root_cause = (common_causes fault_type).headI := by
  intro ft devs bgp intf
  have hne : common_causes ft ≠ [] := by
    unfold common_causes
    split_ifs <;> simp
  obtain ⟨c, cs, hcc⟩ := List.exists_cons_of_ne_nil hne
  have hlen : (analyze_root_cause ft devs bgp intf (common_causes ft)).evidence.length =
      devs.length + (if bgpNeighborDown bgp then 1 else 0)
        + (if interfaceDown intf then 1 else 0) := by
    simp only [analyze_root_cause, List.length_append, List.length_map]
    split_ifs <;> simp
  refine ⟨rfl, hlen, ?_, ?_, hne, ?_⟩
  · show (0 : ℚ) ≤ min (0.3 + (((analyze_root_cause ft devs bgp intf
        (common_causes ft)).evidence.length : ℚ)) * 0.15) 0.95
    have h0 : (0 : ℚ) ≤ (((analyze_root_cause ft devs bgp intf
        (common_causes ft)).evidence.length : ℚ)) := Nat.cast_nonneg _
    exact le_min (by linarith) (by norm_num)
  · exact min_le_right _ _
  · rw [hcc]
    simp [analyze_root_cause, hcc]
